import Mathlib

/-!
Verification of the RTU/TCP framing and timing layer of the
micropython-modbus repository, shallowly embedded from
`src/umodbus/asynchronous/serial.py` (class `AsyncRTUServer`) and, where the
repository code is only present through its tests or callers, modelled from
the specification.

All times are in microseconds.  The Python source converts microsecond
quantities to seconds with `US_TO_S = 1 / 1_000_000` only at the point where
they are handed to `asyncio`; the embedding keeps every quantity in
microseconds throughout, so `timeout * US_TO_S` seconds is represented as
`timeout` microseconds.
-/

namespace UModbus

/-- Timing constants computed by `AsyncRTUServer.__init__`
(`src/umodbus/asynchronous/serial.py` lines 89-95):
`char_const = data_bits + stop_bits + 2`,
`t1char = (1_000_000 * char_const) // baudrate`, and
`t35chars = (3_500_000 * char_const) // baudrate` when `baudrate <= 19200`,
else the fixed `1750`. -/
structure RTUTiming where
  t1char : Nat
  t35chars : Nat
deriving Repr, DecidableEq

/-- Embedding of the timing computation in `AsyncRTUServer.__init__`. -/
def init_timing (baudrate data_bits stop_bits : Nat) : RTUTiming :=
  let char_const := data_bits + stop_bits + 2
  { t1char := (1000000 * char_const) / baudrate
    t35chars :=
      if baudrate ≤ 19200 then (3500000 * char_const) / baudrate
      else 1750 }

/-- Embedding of the default-timeout fix-up at the top of
`AsyncRTUServer._uart_read_frame` (lines 123-124): `if not timeout:
timeout = 2 * self._t35chars`.  Python's `not timeout` is true for both
`None` and `0`.  The resulting value is used as
`total_timeout = timeout * US_TO_S` seconds, i.e. `timeout` microseconds. -/
def effective_timeout (t35chars : Nat) (timeout : Option Nat) : Nat :=
  match timeout with
  | none => 2 * t35chars
  | some t => if t = 0 then 2 * t35chars else t

/-- Embedding of the read loop of `AsyncRTUServer._uart_read_frame`
(lines 130-143).  The environment is a list of arrivals `(gap, burst)`:
`gap` is the idle time in microseconds between the completion of the
previous read and the arrival of `burst`.  A read completes iff the data
arrives strictly before the pending `asyncio.wait_for` timeout expires;
on success the bytes are appended and the timeout for the next read
becomes `frame_timeout = t35chars` microseconds (line 128); on timeout the
accumulated bytes are returned (lines 141-143). -/
def read_loop (curTimeout frameTimeout : Nat) :
    List (Nat × List Nat) → List Nat
  | [] => []
  | (gap, burst) :: rest =>
      if gap < curTimeout then
        burst ++ read_loop frameTimeout frameTimeout rest
      else []

/-- Embedding of `AsyncRTUServer._uart_read_frame` (lines 117-143):
the first read waits up to the (defaulted) overall timeout, every
subsequent read waits up to `t35chars` microseconds. -/
def uart_read_frame (t35chars : Nat) (timeout : Option Nat)
    (arrivals : List (Nat × List Nat)) : List Nat :=
  read_loop (effective_timeout t35chars timeout) t35chars arrivals

/-- Modelled from the spec: the CRC-16 Engine (spec 4.2), whose code lives in
`umodbus/functions.py`, outside `src/`: polynomial mask `0xA001`, seed
`0xFFFF`, eight shifts per byte.  One shift step. -/
def crc16_round (crc : Nat) : Nat :=
  if crc % 2 = 1 then (crc / 2) ^^^ 0xA001 else crc / 2

/-- Modelled from the spec: fold one byte into the CRC (eight shift steps). -/
def crc16_update (crc b : Nat) : Nat :=
  crc16_round^[8] (crc ^^^ (b % 256))

/-- Modelled from the spec: `crc16(bytes) -> u16` over a whole byte list. -/
def crc16 (data : List Nat) : Nat :=
  data.foldl crc16_update 0xFFFF

/-- Modelled from the spec: `CommonRTUFunctions._form_serial_pdu`
(in `umodbus/serial.py`, outside `src/`), the RTU wrap of spec 4.3:
unit address, then the PDU, then the CRC16 of both, little-endian. -/
def form_serial_pdu (modbus_pdu : List Nat) (slave_addr : Nat) : List Nat :=
  let frame := slave_addr :: modbus_pdu
  frame ++ [crc16 frame % 256, crc16 frame / 256]

/-- Modelled from the spec: `CommonRTUFunctions._parse_request`
(in `umodbus/serial.py`, outside `src/`), the RTU unwrap plus the
responder-side address filter of spec 4.6: a truncated frame, a frame whose
unit address is not in the responder's configured address list, or a frame
with a bad CRC is silently dropped (`None`); otherwise the frame without its
CRC is returned. -/
def parse_request (req : List Nat) (addr_list : List Nat) : Option (List Nat) :=
  if req.length < 4 then none
  else if req.getD 0 0 ∈ addr_list then
    let body := req.take (req.length - 2)
    if req.drop (req.length - 2) = [crc16 body % 256, crc16 body / 256] then
      some body
    else none
  else none

/-- Modelled from the spec: the request-validity check performed when an
`AsyncRequest` is constructed (in `umodbus/asynchronous/common.py`, outside
`src/`).  Per spec 4.1 and 4.6 it raises a `ModbusException` carrying
`(function_code, exception_code)`: an unsupported function code maps to
exception 01, a register quantity beyond the protocol maxima (2000 bits for
coil reads, 125 words for register reads, 1968 bits / 123 words for
multi-writes) maps to exception 03.  `body` is the frame without CRC:
`body[0]` unit address, `body[1]` function code, `body[4..5]` quantity. -/
def async_request_check (body : List Nat) : Option (Nat × Nat) :=
  let fc := body.getD 1 0
  if fc ∈ [1, 2, 3, 4, 5, 6, 15, 16] then
    let qty := 256 * body.getD 4 0 + body.getD 5 0
    if (fc = 1 ∨ fc = 2) ∧ (qty = 0 ∨ qty > 2000) then some (fc, 3)
    else if (fc = 3 ∨ fc = 4) ∧ (qty = 0 ∨ qty > 125) then some (fc, 3)
    else if fc = 15 ∧ (qty = 0 ∨ qty > 1968) then some (fc, 3)
    else if fc = 16 ∧ (qty = 0 ∨ qty > 123) then some (fc, 3)
    else none
  else some (fc, 1)

/-- Embedding of `AsyncRTUServer.get_request` (lines 235-250) applied to an
already-received frame `req` (the result of `_uart_read_frame`).  Returns
the accepted request body (if any) together with the list of outbound
frames written to the bus: `_parse_request` returning `None` falls through
to returning `None` with nothing sent; a `ModbusException` raised while
constructing the `AsyncRequest` triggers `send_exception_response`, which
writes one exception frame `[fc + 0x80, exception_code]` framed for
`req[0]`. -/
def get_request (addr_list : List Nat) (req : List Nat) :
    Option (List Nat) × List (List Nat) :=
  match parse_request req addr_list with
  | none => (none, [])
  | some body =>
      match async_request_check body with
      | none => (some body, [])
      | some (fc, ec) =>
          (none, [form_serial_pdu [fc + 128, ec] (req.getD 0 0)])

/-- Externally visible actions of `AsyncRTUServer._send`, each stamped with
the microsecond clock value at which it happens: a direction-pin level
change, the UART write of a frame, the writer drain, and a timed sleep
(duration, start time). -/
inductive SendEvent where
  | setPin (level : Nat) (time : Nat)
  | uartWrite (frame : List Nat) (time : Nat)
  | drain (time : Nat)
  | sleepEv (duration : Nat) (time : Nat)
deriving Repr, DecidableEq

/-- Embedding of `AsyncRTUServer._send` (lines 145-168) as the trace of its
externally visible actions.  `hasCtrlPin` is whether `self._ctrlPin` is
configured, `startTime` the clock when `_send` begins, `drainDur` how long
`self._uart_writer.drain()` takes.  With a control pin: set the pin to 1,
`asyncio.sleep(1/1000)` (1000 us), record `send_start_time =
time.ticks_us()`, write and drain, then sleep
`(send_start_time + t1char * len(serial_pdu)) - time.ticks_us()` (clamped
at zero, since `asyncio.sleep` of a negative duration returns at once) and
set the pin to 0.  Without a control pin: write and drain only. -/
def send (t1char : Nat) (hasCtrlPin : Bool) (modbus_pdu : List Nat)
    (slave_addr startTime drainDur : Nat) : List SendEvent :=
  let serial_pdu := form_serial_pdu modbus_pdu slave_addr
  if hasCtrlPin then
    let send_start := startTime + 1000
    let afterDrain := send_start + drainDur
    let target : Int := (send_start : Int) + (t1char * serial_pdu.length : Nat)
    let hold := (target - (afterDrain : Int)).toNat
    [SendEvent.setPin 1 startTime,
     SendEvent.sleepEv 1000 startTime,
     SendEvent.uartWrite serial_pdu send_start,
     SendEvent.drain send_start,
     SendEvent.sleepEv hold afterDrain,
     SendEvent.setPin 0 (afterDrain + hold)]
  else
    [SendEvent.uartWrite serial_pdu startTime,
     SendEvent.drain startTime]

/-- Embedding of the loop body of `AsyncRTUServer._uart_read`
(lines 97-115): `reads i` is what `self._uart_reader.read()` yields on
attempt `i`, `er` is the inherited `self._exit_read` completeness check
(kept abstract: the claim only uses it as an oracle), `fuel` the number of
remaining iterations of `for _ in range(1, 40)`.  Each iteration extends
the accumulator, breaks when `er` accepts it, and otherwise sleeps
`t35chars` before the next attempt. -/
def uart_read_go (er : List Nat → Bool) (reads : Nat → List Nat) :
    Nat → Nat → List Nat → List Nat
  | _, 0, acc => acc
  | i, n + 1, acc =>
      let acc2 := acc ++ reads i
      if er acc2 then acc2 else uart_read_go er reads (i + 1) n acc2

/-- Embedding of `AsyncRTUServer._uart_read`: `range(1, 40)` runs the body
at most 39 times starting from an empty accumulator. -/
def uart_read (er : List Nat → Bool) (reads : Nat → List Nat) : List Nat :=
  uart_read_go er reads 0 39 []

/-- Concatenation of attempts `i, i+1, ..., i+k-1` of `reads`. -/
def joinFrom (reads : Nat → List Nat) : Nat → Nat → List Nat
  | _, 0 => []
  | i, k + 1 => reads i ++ joinFrom reads (i + 1) k

/-- Host-side errors of spec 4.4 step 5 / spec 7 (surfaced as `ValueError`
assertions by the Python code, per `test__validate_resp_hdr`). -/
inductive HostError where
  | unexpectedTransaction
  | protocolViolation
  | remoteException (code : Nat)
deriving Repr, DecidableEq

/-- The TCP host engine's local state: the monotonically incrementing
transaction-id counter (`trans_id_ctr`). -/
structure TCPHostState where
  trans_id_ctr : Nat
deriving Repr, DecidableEq

/-- Big-endian 16-bit transaction id in bytes 0-1 of an MBAP response. -/
def mbap_trans_id (response : List Nat) : Nat :=
  256 * response.getD 0 0 + response.getD 1 0

/-- Modelled from the spec: `TCP._validate_resp_hdr` (in `umodbus/tcp.py`,
outside `src/`; exercised by `test__validate_resp_hdr` in
`src/tests/test_tcp_example.py`).  Per spec 4.4 step 5: the response
transaction id must equal the one just issued, else
`UnexpectedTransaction`; the unit address must equal the requested one and
the function code must equal the request's, or the request's OR 0x80 which
surfaces the remote exception code; anything else is a protocol violation.
On success the payload after the 7-byte MBAP header and the function-code
byte is returned. -/
def validate_resp_hdr (response : List Nat)
    (trans_id slave_addr function_code : Nat) :
    Except HostError (List Nat) :=
  if mbap_trans_id response ≠ trans_id then
    Except.error HostError.unexpectedTransaction
  else if response.getD 6 0 ≠ slave_addr then
    Except.error HostError.protocolViolation
  else if response.getD 7 0 = function_code then
    Except.ok (response.drop 8)
  else if response.getD 7 0 = function_code + 128 then
    Except.error (HostError.remoteException (response.getD 8 0))
  else
    Except.error HostError.protocolViolation

/-- The host engine's response-validation step as a state transformer: the
Python method either returns the payload or raises before touching any
attribute, so the state passes through unchanged on every path. -/
def host_validate_response (st : TCPHostState) (response : List Nat)
    (trans_id slave_addr function_code : Nat) :
    TCPHostState × Except HostError (List Nat) :=
  (st, validate_resp_hdr response trans_id slave_addr function_code)

/-! ## Theorems -/

/-- C5: for every constructor configuration, `t35chars` equals
`(3_500_000 * (data_bits + stop_bits + 2)) / baudrate` when
`baudrate ≤ 19200` and the fixed `1750` microseconds otherwise. -/
theorem c5_t35chars_formula (baudrate data_bits stop_bits : Nat) :
    (init_timing baudrate data_bits stop_bits).t35chars =
      if baudrate ≤ 19200 then
        (3500000 * (data_bits + stop_bits + 2)) / baudrate
      else 1750 := rfl

/-- C6: for every baudrate, data_bits and stop_bits, `t1char` equals
`(1_000_000 * (data_bits + stop_bits + 2)) / baudrate` microseconds,
with integer (floor) division. -/
theorem c6_t1char_formula (baudrate data_bits stop_bits : Nat) :
    (init_timing baudrate data_bits stop_bits).t1char =
      (1000000 * (data_bits + stop_bits + 2)) / baudrate := rfl

/-- C9: when `_uart_read_frame` is called with `timeout` equal to `None` or
`0`, the overall first-byte timeout defaults to exactly `2 * t35chars`
microseconds (the value is multiplied by `US_TO_S` before use, so its unit
is microseconds, not the milliseconds the adjacent comment claims). -/
theorem c9_default_timeout (t35chars : Nat)
    (arrivals : List (Nat × List Nat)) :
    effective_timeout t35chars none = 2 * t35chars ∧
    effective_timeout t35chars (some 0) = 2 * t35chars ∧
    uart_read_frame t35chars none arrivals =
      read_loop (2 * t35chars) t35chars arrivals ∧
    uart_read_frame t35chars (some 0) arrivals =
      read_loop (2 * t35chars) t35chars arrivals :=
  ⟨rfl, rfl, rfl, rfl⟩

/-- C1: for a host-side response read with two bursts, a gap shorter than
the silence interval `t35chars` between them yields one frame holding both
bursts, while a gap exceeding the silence interval yields the first burst
alone. -/
theorem c1_silence_frame_assembly (t35chars total g1 g2 : Nat)
    (b1 b2 : List Nat) (htotal : 0 < total) (hfirst : g1 < total) :
    (g2 < t35chars →
      uart_read_frame t35chars (some total) [(g1, b1), (g2, b2)] =
        b1 ++ b2) ∧
    (t35chars < g2 →
      uart_read_frame t35chars (some total) [(g1, b1), (g2, b2)] = b1) := by
  have hne : total ≠ 0 := by omega
  have he : effective_timeout t35chars (some total) = total := by
    simp [effective_timeout, hne]
  unfold uart_read_frame
  rw [he]
  constructor
  · intro h2
    simp [read_loop, hfirst, h2]
  · intro h2
    have hn : ¬ (g2 < t35chars) := by omega
    simp [read_loop, hfirst, hn]

/-- C1 witness: at 9600 baud timing (`t35chars = 4010`), with an overall
timeout of 8020 us, a first burst at gap 0 and a second burst at gap 100. -/
theorem c1_silence_frame_assembly_witness :
    (0 : Nat) < 8020 ∧ (0 : Nat) < 8020 ∧
    ((100 < 4010 →
      uart_read_frame 4010 (some 8020) [(0, [10]), (100, [132])] =
        [10] ++ [132]) ∧
     (4010 < 100 →
      uart_read_frame 4010 (some 8020) [(0, [10]), (100, [132])] = [10])) :=
  ⟨by decide, by decide,
   c1_silence_frame_assembly 4010 8020 0 100 [10] [132]
     (by decide) (by decide)⟩

/-- C2 counterexample: with `t35chars = 1750` the code's per-chunk wait is
`1750` us, not `2 * 1750`: a second burst arriving after a 2000 us gap —
well inside the `2 * t35chars = 3500` us window the claim asserts — is NOT
part of the returned frame. -/
theorem c2_per_chunk_timeout_counterexample :
    uart_read_frame 1750 (some 10000) [(0, [1]), (2000, [2])] = [1] ∧
    2000 < 2 * 1750 := by decide

/-- C2 amended: the reader waits up to the full caller-supplied timeout for
the first byte, and after each received chunk waits `1 × t35chars` (one
silence interval, not two) for the next chunk before declaring the frame
complete. -/
theorem c2_amended_per_chunk_timeout (total t35chars g : Nat)
    (b : List Nat) (rest : List (Nat × List Nat)) (htotal : 0 < total) :
    (total ≤ g →
      uart_read_frame t35chars (some total) ((g, b) :: rest) = []) ∧
    (g < total →
      uart_read_frame t35chars (some total) ((g, b) :: rest) =
        b ++ read_loop t35chars t35chars rest) := by
  have hne : total ≠ 0 := by omega
  have he : effective_timeout t35chars (some total) = total := by
    simp [effective_timeout, hne]
  unfold uart_read_frame
  rw [he]
  constructor
  · intro h1
    have hn : ¬ (g < total) := by omega
    simp [read_loop, hn]
  · intro h1
    simp [read_loop, h1]

/-- C2 amended witness: timeout 10000 us, `t35chars = 1750`; a burst at gap
2000 is dropped by the per-chunk window even though it is below
`2 * t35chars`. -/
theorem c2_amended_per_chunk_timeout_witness :
    (0 : Nat) < 10000 ∧
    ((10000 ≤ 2000 →
      uart_read_frame 1750 (some 10000) [(2000, [7])] = []) ∧
     (2000 < 10000 →
      uart_read_frame 1750 (some 10000) [(2000, [7])] =
        [7] ++ read_loop 1750 1750 [])) :=
  ⟨by decide,
   c2_amended_per_chunk_timeout 10000 1750 2000 [7] [] (by decide)⟩

/-- C3: an inbound RTU frame whose unit address is not in the responder's
configured address list makes `get_request` produce zero outbound frames,
return no request, and surface no error. -/
theorem c3_unknown_unit_addr_dropped (addr_list req : List Nat)
    (h : req.getD 0 0 ∉ addr_list) :
    get_request addr_list req = (none, []) := by
  have hp : parse_request req addr_list = none := by
    unfold parse_request
    rcases Nat.lt_or_ge req.length 4 with hl | hl
    · rw [if_pos hl]
    · rw [if_neg (by omega), if_neg h]
  unfold get_request
  rw [hp]

/-- C3 witness: a well-formed read-holding-registers frame addressed to
unit 5 at a responder configured for unit 10 only. -/
theorem c3_unknown_unit_addr_dropped_witness :
    (List.getD [5, 3, 0, 0, 0, 1, 133, 139] 0 0) ∉ [10] ∧
    get_request [10] [5, 3, 0, 0, 0, 1, 133, 139] = (none, []) :=
  ⟨by decide, c3_unknown_unit_addr_dropped [10]
    [5, 3, 0, 0, 0, 1, 133, 139] (by decide)⟩

/-- C4: with a direction-control pin configured, `_send` sets the pin to 1
at `startTime`, performs the first (and only) UART write 1000 us (1 ms)
later, and sets the pin back to 0 only at a time no earlier than
transmission start plus `t1char` times the framed byte count. -/
theorem c4_send_ctrl_pin_timing (t1char : Nat) (modbus_pdu : List Nat)
    (slave_addr startTime drainDur : Nat) : ∃ hold,
    send t1char true modbus_pdu slave_addr startTime drainDur =
      [SendEvent.setPin 1 startTime,
       SendEvent.sleepEv 1000 startTime,
       SendEvent.uartWrite (form_serial_pdu modbus_pdu slave_addr)
         (startTime + 1000),
       SendEvent.drain (startTime + 1000),
       SendEvent.sleepEv hold (startTime + 1000 + drainDur),
       SendEvent.setPin 0 (startTime + 1000 + drainDur + hold)] ∧
    startTime + 1000 +
        t1char * (form_serial_pdu modbus_pdu slave_addr).length ≤
      startTime + 1000 + drainDur + hold := by
  refine ⟨((((startTime + 1000 : Nat) : Int) +
      ((t1char * (form_serial_pdu modbus_pdu slave_addr).length : Nat) : Int)) -
      (((startTime + 1000 + drainDur : Nat) : Int))).toNat, ?_, ?_⟩
  · rfl
  · omega

/-- C10: with no direction-control pin configured, the only externally
visible effects of `_send` are the UART write of the framed PDU and the
drain: no pin change and no sleep occurs. -/
theorem c10_send_no_ctrl_pin (t1char : Nat) (modbus_pdu : List Nat)
    (slave_addr startTime drainDur : Nat) :
    send t1char false modbus_pdu slave_addr startTime drainDur =
      [SendEvent.uartWrite (form_serial_pdu modbus_pdu slave_addr) startTime,
       SendEvent.drain startTime] ∧
    (∀ level t, SendEvent.setPin level t ∉
      send t1char false modbus_pdu slave_addr startTime drainDur) ∧
    (∀ d t, SendEvent.sleepEv d t ∉
      send t1char false modbus_pdu slave_addr startTime drainDur) := by
  refine ⟨rfl, ?_, ?_⟩
  · intro level t
    simp [send]
  · intro d t
    simp [send]

/-- The responder read loop `uart_read_go` consumes some number `k ≤ fuel`
of read attempts, returns the accumulator extended by exactly those reads,
never saw `er` accept a strict intermediate prefix, and stops before
exhausting its fuel only because `er` accepted the result. -/
lemma uart_read_go_spec (er : List Nat → Bool) (reads : Nat → List Nat) :
    ∀ (n i : Nat) (acc : List Nat), ∃ k,
      k ≤ n ∧ (0 < n → 1 ≤ k) ∧
      uart_read_go er reads i n acc = acc ++ joinFrom reads i k ∧
      (∀ j, 1 ≤ j → j < k → er (acc ++ joinFrom reads i j) = false) ∧
      (k < n → er (acc ++ joinFrom reads i k) = true) := by
  intro n
  induction n with
  | zero =>
      intro i acc
      exact ⟨0, Nat.le_refl 0, by omega, by simp [uart_read_go, joinFrom],
        by omega, by omega⟩
  | succ n ih =>
      intro i acc
      by_cases h : er (acc ++ reads i) = true
      · refine ⟨1, by omega, by omega, ?_, by omega, ?_⟩
        · simp [uart_read_go, h, joinFrom]
        · intro _
          simpa [joinFrom] using h
      · rw [Bool.not_eq_true] at h
        obtain ⟨k, hkn, hkpos, hgo, hmin, hexit⟩ := ih (i + 1) (acc ++ reads i)
        refine ⟨k + 1, by omega, by omega, ?_, ?_, ?_⟩
        · simp [uart_read_go, h, joinFrom, hgo]
        · intro j hj1 hjk
          match j, hj1, hjk with
          | 1, _, _ =>
              simpa [joinFrom] using h
          | (j' + 2), _, hjk =>
              have : acc ++ joinFrom reads i (j' + 2) =
                  (acc ++ reads i) ++ joinFrom reads (i + 1) (j' + 1) := by
                simp [joinFrom]
              rw [this]
              exact hmin (j' + 1) (by omega) (by omega)
        · intro hlt
          have : acc ++ joinFrom reads i (k + 1) =
              (acc ++ reads i) ++ joinFrom reads (i + 1) k := by
            simp [joinFrom]
          rw [this]
          exact hexit (by omega)

/-- C7: responder-mode reception runs at most 39 read attempts (the
`range(1, 40)` loop), always terminates with the bytes accumulated so far,
and exits early exactly when `_exit_read` first recognizes the accumulated
frame as complete. -/
theorem c7_uart_read_loop (er : List Nat → Bool) (reads : Nat → List Nat) :
    ∃ k, 1 ≤ k ∧ k ≤ 39 ∧
      uart_read er reads = joinFrom reads 0 k ∧
      (∀ j, 1 ≤ j → j < k → er (joinFrom reads 0 j) = false) ∧
      (k < 39 → er (joinFrom reads 0 k) = true) := by
  obtain ⟨k, hkn, hkpos, hgo, hmin, hexit⟩ := uart_read_go_spec er reads 39 0 []
  refine ⟨k, hkpos (by omega), hkn, ?_, ?_, ?_⟩
  · simpa [uart_read] using hgo
  · intro j hj1 hjk
    simpa using hmin j hj1 hjk
  · intro h
    simpa using hexit h

/-- C8: a TCP response whose transaction id differs from the one issued for
the request makes response validation fail with `UnexpectedTransaction`,
and the host state (the transaction-id counter) is unchanged. -/
theorem c8_unexpected_transaction (st : TCPHostState) (response : List Nat)
    (trans_id slave_addr function_code : Nat)
    (h : mbap_trans_id response ≠ trans_id) :
    host_validate_response st response trans_id slave_addr function_code =
      (st, Except.error HostError.unexpectedTransaction) := by
  unfold host_validate_response validate_resp_hdr
  rw [if_pos h]

/-- C8 witness: the frame from `test__validate_resp_hdr` carrying
transaction id 9, validated against issued id 10. -/
theorem c8_unexpected_transaction_witness :
    mbap_trans_id [0, 9, 0, 0, 0, 5, 10, 3, 2, 0, 19] ≠ 10 ∧
    host_validate_response ⟨11⟩ [0, 9, 0, 0, 0, 5, 10, 3, 2, 0, 19] 10 10 3 =
      (⟨11⟩, Except.error HostError.unexpectedTransaction) :=
  ⟨by decide, c8_unexpected_transaction ⟨11⟩
    [0, 9, 0, 0, 0, 5, 10, 3, 2, 0, 19] 10 10 3 (by decide)⟩

end UModbus
